import Mathlib

/-!
A shallow embedding of the crawl-orchestration core of the
scrapfly-crawler repository (src/scrapfly_crawler): the URL
normalizer (utils.py), the frontier (tracker.py), the adaptive
concurrency controller (rate_limiter.py), the retry fetch policy and
per-URL fetch driver (scraper.py), and the orchestrator's batch
selection (crawler.py), together with theorems settling the frozen
claims about them.

Modelling conventions:
* Python dicts are association lists (`List (String × V)`) with
  Python's insertion-order semantics (update keeps position, fresh
  keys append).
* `datetime.now()` is an abstract `Nat` timestamp threaded into each
  mutating call; `isoformat`/`fromisoformat` round-tripping is the
  identity on that abstract timestamp.
* Numeric delay values (`Retry-After`, backoff seconds) are `Int`;
  the source's float arithmetic on them is exact for the operations
  used (sums, products, powers of two).
* The HTTP transport (`client.async_scrape`) is an oracle
  `Nat → ScrapeCall` consumed one entry per issued request; headers
  the code reads (`retry-after`, `location`, `content-type`) are
  typed fields of the modelled response.
* CPython stdlib calls (`urlparse`, `urljoin`, `parse_qs`,
  `urlencode`, `urldefrag`, `str.lower`) are modelled by the
  `py`-prefixed functions below; the model is faithful on the
  percent-encoding-free URLs the theorems evaluate, and does not
  model percent decoding/re-encoding or dot-segment removal.
* Raising an exception is modelled by an `Option`/flagged result
  carrying the in-memory state at the raise point.
-/

/-! ## Character-list string primitives (CPython string ops model) -/

/-- Does `pat` occur at the front of `cs`? -/
def chIsPre : List Char → List Char → Bool
  | [], _ => true
  | _ :: _, [] => false
  | a :: as, b :: bs => a == b && chIsPre as bs

/-- Does `pat` occur anywhere inside `cs` (Python `pat in s`)? -/
def chContains (pat : List Char) : List Char → Bool
  | [] => chIsPre pat []
  | c :: cs => chIsPre pat (c :: cs) || chContains pat cs

/-- Split `cs` at the first occurrence of `pat` (Python `s.split(sep, 1)`),
returning the parts before and after it, or `none` when `pat` does not occur. -/
def chSplitFirst (pat : List Char) : List Char → Option (List Char × List Char)
  | [] => if chIsPre pat [] then some ([], []) else none
  | c :: cs =>
    if chIsPre pat (c :: cs) then some ([], (c :: cs).drop pat.length)
    else match chSplitFirst pat cs with
      | some (pre, post) => some (c :: pre, post)
      | none => none

/-- Split on every occurrence of a single-character separator
(Python `s.split(sep)`). -/
def chSplitChar (sep : Char) : List Char → List (List Char)
  | [] => [[]]
  | c :: cs =>
    if c == sep then [] :: chSplitChar sep cs
    else match chSplitChar sep cs with
      | [] => [[c]]
      | g :: gs => (c :: g) :: gs

/-- Python `pat in s`. -/
def strContains (s pat : String) : Bool := chContains pat.data s.data

/-- Python `s.startswith(pat)`. -/
def strStarts (s pat : String) : Bool := chIsPre pat.data s.data

/-- Python `s.endswith(pat)`. -/
def strEnds (s pat : String) : Bool := chIsPre pat.data.reverse s.data.reverse

/-- Python `s.lower()` (ASCII model). -/
def strLower (s : String) : String := ⟨s.data.map Char.toLower⟩

/-! ## CPython urllib.parse model -/

/-- The components `urlparse` produces (path params folded into the path). -/
structure UrlParts where
  scheme : String
  netloc : String
  path : String
  query : String
  fragment : String
deriving DecidableEq

/-- Characters allowed in a URL scheme after the leading letter. -/
def isSchemeChar (c : Char) : Bool := c.isAlphanum || c == '+' || c == '-' || c == '.'

/-- Model of CPython `urllib.parse.urlparse`: fragment split at the first
`#`, scheme split at the first `:` when the prefix is a valid scheme
(lower-cased), netloc after `//` up to the next `/`, `?` or `#`, query
after the first `?`, path the remainder. -/
def pyUrlParse (url : String) : UrlParts :=
  let fragSplit :=
    match chSplitFirst ['#'] url.data with
    | some (a, b) => (a, b)
    | none => (url.data, [])
  let beforeFrag := fragSplit.1
  let schemeSplit :=
    match chSplitFirst [':'] beforeFrag with
    | some (pre, post) =>
      (match pre with
       | [] => (([] : List Char), beforeFrag)
       | c :: cs => if c.isAlpha && cs.all isSchemeChar then (pre, post) else ([], beforeFrag))
    | none => ([], beforeFrag)
  let rest1 := schemeSplit.2
  let netlocSplit :=
    if chIsPre ['/', '/'] rest1 then
      let t := rest1.drop 2
      (t.takeWhile (fun c => !(c == '/' || c == '?' || c == '#')),
       t.dropWhile (fun c => !(c == '/' || c == '?' || c == '#')))
    else ([], rest1)
  let querySplit :=
    match chSplitFirst ['?'] netlocSplit.2 with
    | some (a, b) => (a, b)
    | none => (netlocSplit.2, [])
  ⟨⟨schemeSplit.1.map Char.toLower⟩, ⟨netlocSplit.1⟩, ⟨querySplit.1⟩, ⟨querySplit.2⟩, ⟨fragSplit.2⟩⟩

/-- Model of CPython `urlunsplit` restricted to an empty fragment, as
`normalize_query_params` uses it (it passes `''` for the fragment). -/
def pyUrlUnsplit (scheme netloc path query : String) : String :=
  let url := path
  let url :=
    if netloc ≠ "" ∨ (url ≠ "" ∧ strStarts url "//") then
      let url2 := if url ≠ "" ∧ ¬ strStarts url "/" then "/" ++ url else url
      "//" ++ netloc ++ url2
    else url
  let url := if scheme ≠ "" then scheme ++ ":" ++ url else url
  if query ≠ "" then url ++ "?" ++ query else url

/-- Model of CPython `parse_qsl(query, keep_blank_values=True)`:
split on `&`, drop empty chunks, split each chunk at its first `=`
(missing value kept as the empty string). Percent decoding is not
modelled. -/
def parseQsl (q : String) : List (String × String) :=
  (chSplitChar '&' q.data).filterMap fun chunk =>
    if chunk.isEmpty then none
    else match chSplitFirst ['='] chunk with
      | some (k, v) => some (⟨k⟩, ⟨v⟩)
      | none => some (⟨chunk⟩, "")

/-- Append one value to a key's list, grouping as `parse_qs` does:
keys keep first-occurrence order, values keep query order. -/
def addParam (d : List (String × List String)) (k v : String) : List (String × List String) :=
  match d with
  | [] => [(k, [v])]
  | (k', vs) :: rest => if k' = k then (k', vs ++ [v]) :: rest else (k', vs) :: addParam rest k v

/-- Model of CPython `parse_qs(query, keep_blank_values=True)`. -/
def groupParams (ps : List (String × String)) : List (String × List String) :=
  ps.foldl (fun d kv => addParam d kv.1 kv.2) []

/-- Model of CPython `urlencode(params, doseq=True)` (quoting not modelled). -/
def encodeQuery (d : List (String × List String)) : String :=
  String.intercalate "&" ((d.map (fun kv => kv.2.map (fun v => kv.1 ++ "=" ++ v))).flatten)

/-! ## utils.py -/

/-- Source `skip_extensions` of `is_resource_url`. -/
def skip_extensions : List String :=
  [".jpg", ".jpeg", ".png", ".gif", ".svg", ".webp", ".ico", ".bmp",
   ".js", ".css", ".map",
   ".woff", ".woff2", ".ttf", ".eot", ".otf",
   ".pdf", ".doc", ".docx",
   ".json", ".xml",
   ".mp4", ".webm", ".mp3", ".wav",
   ".zip", ".tar", ".gz"]

/-- Source `skip_patterns` of `is_resource_url`. -/
def skip_patterns : List String :=
  ["/assets/", "/_assets/", "/static/", "/media/",
   "/dist/", "/build/", "/vendor/",
   "fonts.googleapis.com",
   "ajax.googleapis.com"]

/-- Source `utils.is_resource_url`. -/
def is_resource_url (url : String) : Bool :=
  let u := strLower url
  skip_extensions.any (fun e => strEnds u e) || skip_patterns.any (fun p => strContains u p)

/-- Source `utils.should_exclude_url`: some exclusion pattern is a substring of
the parsed URL's path. An empty pattern list excludes nothing. -/
def should_exclude_url (url : String) (exclude_patterns : List String) : Bool :=
  exclude_patterns.any (fun p => strContains (pyUrlParse url).path p)

/-- Source `skip_params` of `normalize_query_params`. -/
def skip_params : List String :=
  ["utm_source", "utm_medium", "utm_campaign", "utm_term", "utm_content",
   "timestamp", "ts", "t", "rand", "random",
   "fbclid", "gclid", "msclkid",
   "_hsenc", "_hsmi", "mc_cid", "mc_eid"]

/-- Source `utils.normalize_query_params`: unchanged when the URL has no query;
otherwise rebuild the URL without the denylisted parameters and without
the fragment. -/
def normalize_query_params (url : String) : String :=
  let parsed := pyUrlParse url
  if parsed.query = "" then url
  else
    let params := groupParams (parseQsl parsed.query)
    let filtered := params.filter (fun kv => !(skip_params.contains (strLower kv.1)))
    let new_query := encodeQuery filtered
    pyUrlUnsplit parsed.scheme parsed.netloc parsed.path new_query

/-- Source `utils.strip_url_fragment` (CPython `urldefrag`). -/
def strip_url_fragment (url : String) : String :=
  match chSplitFirst ['#'] url.data with
  | some (a, _) => ⟨a⟩
  | none => url

/-- The directory part of a base path for relative-reference resolution:
everything up to and including the last `/` (or `/` when there is none). -/
def dirOf (path : String) : String :=
  match path.data.reverse.dropWhile (fun c => !(c == '/')) with
  | [] => "/"
  | l => ⟨l.reverse⟩

/-- Model of CPython `urljoin` (`utils.normalize_url`) covering absolute
references, scheme-relative and host-relative references, and simple
relative paths (dot segments not modelled). -/
def pyUrlJoin (base link : String) : String :=
  if link = "" then base
  else if base = "" then link
  else
    let bp := pyUrlParse base
    let lp := pyUrlParse link
    if lp.scheme ≠ "" ∧ lp.scheme ≠ bp.scheme then link
    else if lp.netloc ≠ "" then
      pyUrlUnsplit (if lp.scheme ≠ "" then lp.scheme else bp.scheme) lp.netloc lp.path lp.query
    else if lp.path = "" ∧ lp.query = "" then pyUrlUnsplit bp.scheme bp.netloc bp.path bp.query
    else if strStarts lp.path "/" then pyUrlUnsplit bp.scheme bp.netloc lp.path lp.query
    else pyUrlUnsplit bp.scheme bp.netloc (dirOf bp.path ++ lp.path) lp.query

/-- Source `utils.normalize_url`. -/
def normalize_url (base_url link : String) : String := pyUrlJoin base_url link

/-- Source `utils.normalize_domain`. -/
def normalize_domain (domain : String) : String := strLower domain

/-- Source `utils.get_domain`. -/
def get_domain (url : String) : String := normalize_domain (pyUrlParse url).netloc

/-- The normalization every tracker operation applies to a raw URL:
`normalize_query_params` then `strip_url_fragment`. -/
def cleanUrl (url : String) : String := strip_url_fragment (normalize_query_params url)

/-- Source `utils.filter_links`, with the produced Python set represented by the
deduplicated list of accepted keys in acceptance order. -/
def filter_links (base_url : String) (links : List String) (exclude_patterns : List String) :
    List String :=
  let domain := get_domain base_url
  links.foldl
    (fun acc link =>
      if link = "" then acc
      else
        let absolute_url := normalize_url base_url link
        let clean_url := cleanUrl absolute_url
        if should_exclude_url clean_url exclude_patterns then acc
        else
          let link_domain := normalize_domain (pyUrlParse clean_url).netloc
          let base_domain := normalize_domain domain
          if !(is_resource_url clean_url) && link_domain == base_domain then
            if acc.contains clean_url then acc else acc ++ [clean_url]
          else acc)
    []

/-! ## Python-dict association lists -/

/-- Python `d.get(k)` / `d[k]` lookup. -/
def alGet {V : Type} (d : List (String × V)) (k : String) : Option V :=
  match d with
  | [] => none
  | (k', v) :: rest => if k' = k then some v else alGet rest k

/-- Python `k in d`. -/
def alContains {V : Type} (d : List (String × V)) (k : String) : Bool :=
  (alGet d k).isSome

/-- Python `d[k] = v`: update in place when the key exists, append otherwise. -/
def alSet {V : Type} (d : List (String × V)) (k : String) (v : V) : List (String × V) :=
  match d with
  | [] => [(k, v)]
  | (k', v') :: rest => if k' = k then (k', v) :: rest else (k', v') :: alSet rest k v

/-- Mutating one field of the stored value (`d[k].field = x`). -/
def alUpdate {V : Type} (d : List (String × V)) (k : String) (f : V → V) : List (String × V) :=
  match d with
  | [] => []
  | (k', v) :: rest => if k' = k then (k', f v) :: rest else (k', v) :: alUpdate rest k f

/-- Python `del d[k]`. -/
def alDel {V : Type} (d : List (String × V)) (k : String) : List (String × V) :=
  match d with
  | [] => []
  | (k', v) :: rest => if k' = k then rest else (k', v) :: alDel rest k

/-- The key list of a dict, in insertion order. -/
def alKeys {V : Type} (d : List (String × V)) : List String := d.map Prod.fst

/-! ## models.py -/

/-- Source `models.CrawlStatus`. -/
inductive CrawlStatus where
  | pending
  | in_progress
  | completed
  | failed
deriving DecidableEq

/-- The `.value` string of a `CrawlStatus`, as serialized by `save_state`. -/
def statusValue : CrawlStatus → String
  | .pending => "pending"
  | .in_progress => "in_progress"
  | .completed => "completed"
  | .failed => "failed"

/-- The `CrawlStatus(raw)` enum constructor used by `load_state`; `none`
models the `ValueError` raised on an unknown value. -/
def statusOfValue (s : String) : Option CrawlStatus :=
  if s = "pending" then some .pending
  else if s = "in_progress" then some .in_progress
  else if s = "completed" then some .completed
  else if s = "failed" then some .failed
  else none

/-- The scrape-parameter bag (a Python dict). Only the keys the crawl
logic reads or writes are typed; `headers` stands for the nested header
dict, whose contents the crawl logic never inspects. -/
structure ScrapeParams where
  render_js : Option Bool := none
  asp : Option Bool := none
  debug : Option Bool := none
  method : Option String := none
  headers : List (String × String) := []
deriving DecidableEq

/-- The empty dict `{}`. -/
def ScrapeParams.empty : ScrapeParams := {}

/-- Source `dict.get("render_js", False)` on a scrape-parameter bag. -/
def ScrapeParams.getRenderJs (p : ScrapeParams) : Bool := p.render_js.getD false

/-- Model of `os.getenv('RENDER_JS')` being unset, the default
environment for the crawl runs the claims describe. -/
def render_js_env_default : Bool := false

/-- The default parameter bag `LinkMetadata.__post_init__` builds when
`scrape_params` is `None`. Its literal header dict is represented by
`default_post_init_headers`; the crawl logic never reads it. -/
def default_post_init_headers : List (String × String) := [("User-Agent", "Mozilla/5.0")]

/-- The `scrape_params` value produced by `LinkMetadata.__post_init__`. -/
def defaultScrapeParams : ScrapeParams :=
  { render_js := some render_js_env_default, asp := some true, debug := some true,
    headers := default_post_init_headers }

/-- The attributes `final_url`, `redirect_chain` and `is_redirected` that
`update_from_result` and `load_state` assign on a `LinkMetadata`
instance. They are NOT declared as fields of the dataclass in
`models.py`, so a record that never went through those two functions
does not carry them; that absence is the `none` case of the
`redirect_info` field below, and reading them then raises
`AttributeError`. -/
structure RedirectInfo where
  final_url : Option String
  redirect_chain : List String
  is_redirected : Bool
deriving DecidableEq

/-- Source `models.LinkMetadata` (plus the dynamically assigned redirect
attributes, see `RedirectInfo`). -/
structure LinkMetadata where
  url : String
  status_code : Option Int := none
  content_type : Option String := none
  crawled_at : Option Nat := none
  error : Option String := none
  proxy_country : Option String := none
  render_js : Option Bool := none
  timing : Option Nat := none
  scrape_params : ScrapeParams := defaultScrapeParams
  redirect_info : Option RedirectInfo := none
deriving DecidableEq

/-- Source `LinkMetadata(url=u)`: the dataclass constructor with
`__post_init__` filling the default `scrape_params`. -/
def LinkMetadata.make (url : String) : LinkMetadata := { url := url }

/-! ## rate_limiter.py -/

/-- The environment variables `RateLimiter.__init__` reads, with the
source's fallback defaults. -/
structure RlEnv where
  initial_concurrency : Int := 1
  min_concurrency : Int := 1
  max_concurrency : Int := 1
  base_delay : Int := 5
deriving DecidableEq

/-- Source `rate_limiter.RateLimiter` state. -/
structure RateLimiter where
  concurrency : Int
  last_retry_after : Option Int
  consecutive_429s : Nat
  min_concurrency : Int
  max_concurrency : Int
  base_delay : Int
deriving DecidableEq

/-- Source `RateLimiter.__init__(initial_concurrency)`: a falsy argument
(`None` or `0`) falls back to the `INITIAL_CONCURRENCY` environment
value. -/
def RateLimiter.construct (initial : Option Int) (env : RlEnv) : RateLimiter :=
  { concurrency :=
      match initial with
      | some i => if i = 0 then env.initial_concurrency else i
      | none => env.initial_concurrency,
    last_retry_after := none,
    consecutive_429s := 0,
    min_concurrency := env.min_concurrency,
    max_concurrency := env.max_concurrency,
    base_delay := env.base_delay }

/-- Source `RateLimiter.update_concurrency(status_code, retry_after)`. The
source guards the increase with `if self.consecutive_429s == 0` right
after setting that counter to `0`, which is mirrored literally. -/
def RateLimiter.update_concurrency (rl : RateLimiter) (status_code : Int)
    (retry_after : Option Int) : RateLimiter :=
  if status_code = 429 then
    { rl with
      consecutive_429s := rl.consecutive_429s + 1,
      concurrency := max rl.min_concurrency (rl.concurrency - 1),
      last_retry_after :=
        match retry_after with
        | some ra => some ra
        | none => rl.last_retry_after }
  else
    let c429 : Nat := 0
    { rl with
      consecutive_429s := c429,
      concurrency := if c429 = 0 then min rl.max_concurrency (rl.concurrency + 1) else rl.concurrency }

/-- Source `RateLimiter.wait_if_needed`: when `last_retry_after` is set and
truthy (a float `0.0` is falsy), sleep for it and clear it; returns the
slept duration alongside the new state. -/
def RateLimiter.wait_if_needed (rl : RateLimiter) : Option Int × RateLimiter :=
  match rl.last_retry_after with
  | some ra => if ra = 0 then (none, rl) else (some ra, { rl with last_retry_after := none })
  | none => (none, rl)

/-- A finite sequence of `update_concurrency` calls. -/
def RateLimiter.run (rl : RateLimiter) (calls : List (Int × Option Int)) : RateLimiter :=
  calls.foldl (fun acc c => acc.update_concurrency c.1 c.2) rl

/-! ## The transport's response object (scrapfly result model) -/

/-- The part of a scrapfly scrape result the crawl logic reads:
`result.response.status_code`, the three headers it fetches,
`result.response.url`, the redirect history's URLs, the body
(`result.content`) and the raw anchor hrefs extracted by
`result.selector.css("a::attr(href)").getall()`. -/
structure Response where
  status_code : Int
  retry_after : Option Int
  location : Option String
  content_type : Option String
  url : String
  history : List String
  content : String
  raw_links : List String
deriving DecidableEq

/-! ## tracker.py -/

/-- Source `tracker.LinkTracker` in-memory state. The on-disk side of
persistence is modelled by the pure snapshot functions below;
`state_file` being unset corresponds to `save_state` returning early
without serializing. -/
structure LinkTracker where
  base_url : String
  domain : String
  links : List (String × LinkMetadata)
  status : List (String × CrawlStatus)
  discovered_at : List (String × Nat)
  exclude_patterns : List String
  excluded_count : Nat
deriving DecidableEq

/-- A freshly constructed tracker (`LinkTracker.__init__` before any
state file is loaded). -/
def LinkTracker.construct (base_url : String) (exclude_patterns : List String) : LinkTracker :=
  { base_url := base_url, domain := get_domain base_url, links := [], status := [],
    discovered_at := [], exclude_patterns := exclude_patterns, excluded_count := 0 }

/-- Source `LinkTracker.add_link(url)`: normalize, refuse (counting) excluded
URLs, refuse known keys, otherwise create a PENDING record stamped with
the current time. Returns the `bool` result with the new state. -/
def LinkTracker.add_link (t : LinkTracker) (url : String) (now : Nat) : Bool × LinkTracker :=
  let clean_url := cleanUrl url
  if should_exclude_url clean_url t.exclude_patterns then
    (false, { t with excluded_count := t.excluded_count + 1 })
  else if alContains t.links clean_url then
    (false, t)
  else
    (true,
     { t with
       links := alSet t.links clean_url (LinkMetadata.make clean_url),
       status := alSet t.status clean_url CrawlStatus.pending,
       discovered_at := alSet t.discovered_at clean_url now })

/-- Source `LinkTracker.update_status(url, status, error)`: a no-op for
unknown keys; a falsy (`""`) error message is not recorded. -/
def LinkTracker.update_status (t : LinkTracker) (url : String) (status : CrawlStatus)
    (error : Option String) : LinkTracker :=
  let clean_url := cleanUrl url
  if alContains t.links clean_url then
    let t1 := { t with status := alSet t.status clean_url status }
    match error with
    | some e =>
      if e = "" then t1
      else { t1 with links := alUpdate t1.links clean_url (fun m => { m with error := some e }) }
    | none => t1
  else t

/-- The outcome of `update_from_result`: whether the internal
`self.links[clean_url]` lookup raised `KeyError`, and the in-memory
state at return or at the raise point. -/
structure UfrOut where
  raised : Bool
  tracker : LinkTracker
  excluded_attempts : Nat
deriving DecidableEq

/-- The trailing block of `update_from_result` (tracker.py lines
120-125): when the recorded result was a redirect whose final URL is
truthy and on the crawl's domain, discover that final URL as a
first-class frontier entry unless already tracked. -/
def ufrRedirect (t2 : LinkTracker) (ri : RedirectInfo) (now : Nat) (exc1 : Nat) : UfrOut :=
  match ri.is_redirected, ri.final_url with
  | true, some fu =>
    if fu ≠ "" ∧ get_domain fu = t2.domain then
      let final_clean_url := cleanUrl fu
      if alContains t2.links final_clean_url then ⟨false, t2, exc1⟩
      else
        let exc2 := if should_exclude_url (cleanUrl final_clean_url) t2.exclude_patterns then 1 else 0
        ⟨false, (t2.add_link final_clean_url now).2, exc1 + exc2⟩
    else ⟨false, t2, exc1⟩
  | _, _ => ⟨false, t2, exc1⟩

/-- The body of `update_from_result` after the ensure-tracked phase:
look up the record (`KeyError` → `raised`), populate the response
metadata, mark COMPLETED, then handle redirect discovery. `exc1`
carries the excluded-attempt count of the ensure-tracked phase. -/
def ufrFinish (t1 : LinkTracker) (clean_url : String) (result : Response)
    (scrape_params : Option ScrapeParams) (now : Nat) (exc1 : Nat) : UfrOut :=
  match alGet t1.links clean_url with
  | none => ⟨true, t1, exc1⟩
  | some metadata0 =>
    let ri : RedirectInfo :=
      if result.history.isEmpty then
        { final_url := some clean_url, redirect_chain := [], is_redirected := false }
      else
        { final_url := some result.url, redirect_chain := result.history, is_redirected := true }
    let safe_scrape_params := scrape_params.getD ScrapeParams.empty
    let metadata :=
      { metadata0 with
        status_code := some result.status_code,
        content_type := result.content_type,
        crawled_at := some now,
        redirect_info := some ri,
        scrape_params := safe_scrape_params,
        render_js := some safe_scrape_params.getRenderJs }
    let t2 := { t1 with
                links := alSet t1.links clean_url metadata,
                status := alSet t1.status clean_url CrawlStatus.completed }
    ufrRedirect t2 ri now exc1

/-- Source `LinkTracker.update_from_result(result, url, scrape_params)`.
`excluded_attempts` counts how many of the (up to two) internal
`add_link` discovery attempts hit the exclusion branch. -/
def LinkTracker.update_from_result (t : LinkTracker) (result : Response) (url : String)
    (scrape_params : Option ScrapeParams) (now : Nat) : UfrOut :=
  let clean_url := cleanUrl url
  if alContains t.links clean_url then ufrFinish t clean_url result scrape_params now 0
  else
    ufrFinish ((t.add_link clean_url now).2) clean_url result scrape_params now
      (if should_exclude_url (cleanUrl clean_url) t.exclude_patterns then 1 else 0)

/-- Source `LinkTracker.get_pending_links()`, as the contents of the produced
Python set listed in the status dict's insertion order. -/
def LinkTracker.get_pending_links (t : LinkTracker) : List String :=
  let pending_links := (t.status.filter (fun p => p.2 = CrawlStatus.pending)).map Prod.fst
  if t.exclude_patterns = [] then pending_links
  else pending_links.filter (fun u => !(should_exclude_url u t.exclude_patterns))

/-- Source `LinkTracker.get_failed_links()` (set contents, insertion order). -/
def LinkTracker.get_failed_links (t : LinkTracker) : List String :=
  (t.status.filter (fun p => p.2 = CrawlStatus.failed)).map Prod.fst

/-- Source `LinkTracker.get_completed_links()` (set contents, insertion order). -/
def LinkTracker.get_completed_links (t : LinkTracker) : List String :=
  (t.status.filter (fun p => p.2 = CrawlStatus.completed)).map Prod.fst

/-- One serialized link record of the snapshot file. -/
structure SavedLink where
  url : String
  status_code : Option Int
  content_type : Option String
  crawled_at : Option Nat
  error : Option String
  proxy_country : Option String
  render_js : Option Bool
  timing : Option Nat
  scrape_params : ScrapeParams
  final_url : Option String
  redirect_chain : List String
  is_redirected : Bool
deriving DecidableEq

/-- The JSON state snapshot written by `save_state`. -/
structure CrawlState where
  base_url : String
  domain : String
  exclude_patterns : List String
  excluded_count : Nat
  links : List (String × SavedLink)
  status : List (String × String)
  discovered_at : List (String × Nat)
deriving DecidableEq

/-- Serializing one `LinkMetadata`: reading `metadata.final_url` (and
the other redirect attributes) raises `AttributeError` when the record
never passed through `update_from_result` or `load_state`, because
`models.LinkMetadata` does not declare those fields. -/
def saveLink (m : LinkMetadata) : Option SavedLink :=
  match m.redirect_info with
  | none => none
  | some ri =>
    some { url := m.url, status_code := m.status_code, content_type := m.content_type,
           crawled_at := m.crawled_at, error := m.error, proxy_country := m.proxy_country,
           render_js := m.render_js, timing := m.timing, scrape_params := m.scrape_params,
           final_url := ri.final_url, redirect_chain := ri.redirect_chain,
           is_redirected := ri.is_redirected }

/-- The links dict comprehension of `save_state`; `none` when any
record raises `AttributeError`. -/
def saveLinks : List (String × LinkMetadata) → Option (List (String × SavedLink))
  | [] => some []
  | (k, m) :: rest =>
    match saveLink m, saveLinks rest with
    | some s, some ss => some ((k, s) :: ss)
    | _, _ => none

/-- Source `LinkTracker.save_state()`: the whole-state serialization (`none`
models the run aborting with `AttributeError`). -/
def LinkTracker.save_state (t : LinkTracker) : Option CrawlState :=
  match saveLinks t.links with
  | none => none
  | some saved =>
    some { base_url := t.base_url, domain := t.domain,
           exclude_patterns := t.exclude_patterns, excluded_count := t.excluded_count,
           links := saved,
           status := t.status.map (fun p => (p.1, statusValue p.2)),
           discovered_at := t.discovered_at }

/-- Deserializing one link record (`load_state`'s per-link block;
`link_data['scrape_params'] or {}` is the identity on the dict values
serialized from memory). -/
def loadLink (d : SavedLink) : LinkMetadata :=
  { url := d.url, status_code := d.status_code, content_type := d.content_type,
    crawled_at := d.crawled_at, error := d.error, proxy_country := d.proxy_country,
    render_js := d.render_js, timing := d.timing, scrape_params := d.scrape_params,
    redirect_info := some { final_url := d.final_url, redirect_chain := d.redirect_chain,
                            is_redirected := d.is_redirected } }

/-- The status dict restoration of `load_state`; `none` models
`CrawlStatus(raw)` raising on an unknown value. -/
def loadStatuses : List (String × String) → Option (List (String × CrawlStatus))
  | [] => some []
  | (k, s) :: rest =>
    match statusOfValue s, loadStatuses rest with
    | some st, some ss => some ((k, st) :: ss)
    | _, _ => none

/-- Source `LinkTracker.load_state(state_file)` applied to tracker `t`:
freshly supplied exclusion patterns take precedence over the
snapshot's. -/
def LinkTracker.load_state (t : LinkTracker) (st : CrawlState) : Option LinkTracker :=
  match loadStatuses st.status with
  | none => none
  | some sts =>
    some { t with
           base_url := st.base_url,
           domain := st.domain,
           exclude_patterns :=
             if t.exclude_patterns = [] then st.exclude_patterns else t.exclude_patterns,
           excluded_count := st.excluded_count,
           links := st.links.map (fun p => (p.1, loadLink p.2)),
           status := sts,
           discovered_at := st.discovered_at }

/-- Source `LinkTracker._filter_excluded_links()`: purge every stored link
matching the exclusion patterns, incrementing the exclusion counter per
removed link. -/
def LinkTracker.filter_excluded_links (t : LinkTracker) : LinkTracker :=
  if t.exclude_patterns = [] then t
  else
    let links_to_remove := (alKeys t.links).filter (fun u => should_exclude_url u t.exclude_patterns)
    links_to_remove.foldl
      (fun acc u =>
        { acc with
          links := alDel acc.links u,
          status := alDel acc.status u,
          discovered_at := alDel acc.discovered_at u,
          excluded_count := acc.excluded_count + 1 })
      t

/-- The snapshot round trip as `LinkTracker.__init__(state_file=...)`
performs it on resume: serialize, construct a fresh tracker with the
same base URL and (here: no newly supplied, hence the same) exclusion
patterns, load the snapshot, purge excluded records. A failed
serialization (`AttributeError`) leaves the in-memory state as it was. -/
def LinkTracker.reload (t : LinkTracker) : LinkTracker :=
  match t.save_state with
  | none => t
  | some snap =>
    match (LinkTracker.construct t.base_url t.exclude_patterns).load_state snap with
    | none => t
    | some t2 => t2.filter_excluded_links

/-! ## scraper.py -/

/-- One scripted transport outcome for a single `client.async_scrape`
call: a timeout (`asyncio.TimeoutError` from `wait_for`), a retryable
`ConnectionError`, any other exception, or a response. -/
inductive ScrapeCall where
  | tmout
  | connError
  | otherError
  | ok (r : Response)
deriving DecidableEq

/-- How the retry loop proceeds after obtaining a response within one
attempt. -/
inductive AfterStep where
  | retOk (r : Response)
  | retNone
  | nextAttempt (extra_sleep : Option Int)

/-- The classification block of `scrape_with_retry` run on the response
of the current attempt (the explicit 301 follow, the 5xx retry, the 429
retry-after sleep, the immediate return for everything else). Returns
the step together with the request index after any 301-follow request. -/
def swrClassify (oracle : Nat → ScrapeCall) (max_retries : Nat) (base_delay : Int)
    (attempt req : Nat) (r : Response) : AfterStep × Nat :=
  if r.status_code = 301 then
    match r.location with
    | some loc =>
      if loc = "" then (.retOk r, req)
      else
        (match oracle req with
         | .ok r2 => (.retOk r2, req + 1)
         | .tmout => (if attempt + 1 < max_retries then .nextAttempt none else .retNone, req + 1)
         | .connError => (if attempt + 1 < max_retries then .nextAttempt none else .retNone, req + 1)
         | .otherError => (.retNone, req + 1))
    | none => (.retOk r, req)
  else if 500 ≤ r.status_code ∧ r.status_code < 600 then
    (if attempt + 1 < max_retries then (.nextAttempt none) else (.retOk r), req)
  else if r.status_code = 429 then
    if attempt + 1 < max_retries then
      (.nextAttempt (some (match r.retry_after with
        | some ra => ra
        | none => base_delay * 2 ^ attempt)), req)
    else (.retOk r, req)
  else (.retOk r, req)

/-- The observable outcome of one `scrape_with_retry` call: the result
(`none` modelling a `return None`), the number of loop iterations
(attempts) entered, the number of transport requests issued, and the
sleeps performed in order. -/
structure SwrOut where
  result : Option Response
  attempts : Nat
  requests : Nat
  sleeps : List Int

/-- The retry loop of `scrape_with_retry`, one frame per remaining
iteration of `for attempt in range(max_retries)`. `jitter` models
`random.uniform(1, 3)` per backoff sleep. -/
def swrGo (oracle : Nat → ScrapeCall) (jitter : Nat → Int) (url : String)
    (max_retries : Nat) (base_delay : Int) :
    Nat → Nat → List Int → Nat → SwrOut
  | attempt, req, sleeps, 0 => ⟨none, attempt, req, sleeps⟩
  | attempt, req, sleeps, fuel + 1 =>
    let sleeps := if 0 < attempt then sleeps ++ [base_delay * 2 ^ attempt + jitter attempt] else sleeps
    match oracle req with
    | .otherError => ⟨none, attempt + 1, req + 1, sleeps⟩
    | .connError =>
      if attempt + 1 < max_retries then
        swrGo oracle jitter url max_retries base_delay (attempt + 1) (req + 1) sleeps fuel
      else ⟨none, attempt + 1, req + 1, sleeps⟩
    | .tmout =>
      if strStarts url "https://" ∧ attempt = 0 then
        match oracle (req + 1) with
        | .tmout =>
          if attempt + 1 < max_retries then
            swrGo oracle jitter url max_retries base_delay (attempt + 1) (req + 2) sleeps fuel
          else ⟨none, attempt + 1, req + 2, sleeps⟩
        | .connError =>
          if attempt + 1 < max_retries then
            swrGo oracle jitter url max_retries base_delay (attempt + 1) (req + 2) sleeps fuel
          else ⟨none, attempt + 1, req + 2, sleeps⟩
        | .otherError => ⟨none, attempt + 1, req + 2, sleeps⟩
        | .ok r =>
          match swrClassify oracle max_retries base_delay attempt (req + 2) r with
          | (.retOk r2, req') => ⟨some r2, attempt + 1, req', sleeps⟩
          | (.retNone, req') => ⟨none, attempt + 1, req', sleeps⟩
          | (.nextAttempt extra, req') =>
            swrGo oracle jitter url max_retries base_delay (attempt + 1) req'
              (match extra with | some d => sleeps ++ [d] | none => sleeps) fuel
      else
        if attempt + 1 < max_retries then
          swrGo oracle jitter url max_retries base_delay (attempt + 1) (req + 1) sleeps fuel
        else ⟨none, attempt + 1, req + 1, sleeps⟩
    | .ok r =>
      match swrClassify oracle max_retries base_delay attempt (req + 1) r with
      | (.retOk r2, req') => ⟨some r2, attempt + 1, req', sleeps⟩
      | (.retNone, req') => ⟨none, attempt + 1, req', sleeps⟩
      | (.nextAttempt extra, req') =>
        swrGo oracle jitter url max_retries base_delay (attempt + 1) req'
          (match extra with | some d => sleeps ++ [d] | none => sleeps) fuel

/-- Source `scraper.scrape_with_retry(client, url, scrape_params, max_retries,
base_delay)`; the scrape-parameter bag is passed through to the
transport untouched and so does not appear in the model. -/
def scrape_with_retry (oracle : Nat → ScrapeCall) (jitter : Nat → Int) (url : String)
    (max_retries : Nat) (base_delay : Int) : SwrOut :=
  swrGo oracle jitter url max_retries base_delay 0 0 [] max_retries

/-- The binary-extension denylist of `scrape_url` (checked as
substrings of the lower-cased URL). -/
def binary_url_exts : List String :=
  [".jpg", ".jpeg", ".png", ".gif", ".mp4", ".mp3", ".pdf", ".zip"]

/-- The binary content-type markers of `scrape_url`. -/
def binary_content_types : List String :=
  ["image/", "video/", "audio/", "application/octet-stream"]

/-- The output-log record `scrape_url` returns for a successful
non-binary page (one JSON line of the output file). -/
structure OutputMeta where
  status_code : Option Int
  content_type : Option String
  crawled_at : Option Nat
  proxy_country : Option String
  render_js : Option Bool
  timing : Option Nat
  scrape_params : ScrapeParams
  redirect_chain : List String
  is_redirected : Bool
deriving DecidableEq

/-- The `data` dict `scrape_url` hands to the orchestrator for writing. -/
structure OutputRecord where
  url : String
  final_url : String
  html : String
  metadata : OutputMeta
deriving DecidableEq

/-- The outcome of one `scrape_url` call. -/
structure ScrapeUrlOut where
  data : Option OutputRecord
  tracker : LinkTracker
  limiter : RateLimiter
deriving DecidableEq

/-- Source `scraper.scrape_url(client, url, tracker, rate_limiter)`.
`max_retries` and `base_delay` are the environment values
`scrape_with_retry` falls back to. The `metadata` local the source
reads when building `data` is the tracked record object only when the
raw `url` itself is the tracked key (Python object aliasing); otherwise
it is an unshared fresh/stale object, mirrored by `meta_after`. -/
def scrape_url (oracle : Nat → ScrapeCall) (jitter : Nat → Int) (max_retries : Nat)
    (base_delay : Int) (url : String) (t : LinkTracker) (rl : RateLimiter) (now : Nat) :
    ScrapeUrlOut :=
  if should_exclude_url url t.exclude_patterns then
    ⟨none, t.update_status url CrawlStatus.failed (some "URL matches exclude pattern"), rl⟩
  else if binary_url_exts.any (fun e => strContains (strLower url) e) then
    ⟨none, t, rl⟩
  else
    let rl1 := (rl.wait_if_needed).2
    let metadata0 := (alGet t.links url).getD (LinkMetadata.make url)
    let swr := scrape_with_retry oracle jitter url max_retries base_delay
    match swr.result with
    | none =>
      ⟨none, t.update_status url CrawlStatus.failed
        (some "Failed to get a valid result after all retries"), rl1⟩
    | some r =>
      let rl2 := rl1.update_concurrency r.status_code r.retry_after
      if 400 ≤ r.status_code ∧ r.status_code < 500 then
        ⟨none, t.update_status url CrawlStatus.failed
          (some ("Client error: " ++ toString r.status_code)), rl2⟩
      else
        let ct := strLower (r.content_type.getD "")
        if binary_content_types.any (fun b => strContains ct b) then
          ⟨none, t, rl2⟩
        else
          let ufr := t.update_from_result r url (some metadata0.scrape_params) now
          if ufr.raised then
            ⟨none, ufr.tracker.update_status url CrawlStatus.failed
              (some ("KeyError: " ++ cleanUrl url)), rl2⟩
          else
            let t2 := ufr.tracker
            let meta_after :=
              if cleanUrl url = url ∧ alContains t.links url then
                (alGet t2.links url).getD metadata0
              else metadata0
            let redirect_chain := r.history
            let data : OutputRecord :=
              { url := url, final_url := r.url, html := r.content,
                metadata :=
                  { status_code := meta_after.status_code,
                    content_type := meta_after.content_type,
                    crawled_at := meta_after.crawled_at,
                    proxy_country := meta_after.proxy_country,
                    render_js := meta_after.render_js,
                    timing := meta_after.timing,
                    scrape_params := meta_after.scrape_params,
                    redirect_chain := redirect_chain,
                    is_redirected := !redirect_chain.isEmpty } }
            let filtered_links := filter_links t2.base_url r.raw_links t2.exclude_patterns
            let t3 := filtered_links.foldl (fun acc link => (acc.add_link link now).2) t2
            ⟨some data, t3, rl2⟩

/-! ## crawler.py: batch selection -/

/-- The batch the orchestrator selects in one loop iteration:
`list(tracker.get_pending_links())[:rate_limiter.concurrency]`, where
`enum` is the enumeration order the Python set happens to produce (any
permutation of the pending keys; string hashing is randomized per
process, so no particular order is guaranteed). -/
def select_batch (enum : List String) (concurrency : Nat) : List String :=
  enum.take concurrency

/-- The enumeration orders the Python set `get_pending_links()` can
yield: exactly the permutations of its contents. -/
def ValidEnum (t : LinkTracker) (enum : List String) : Prop :=
  List.Perm enum t.get_pending_links

/-! ## Association-list lemmas -/

theorem alGet_alSet_self {V : Type} (d : List (String × V)) (k : String) (v : V) :
    alGet (alSet d k v) k = some v := by
  induction d with
  | nil => simp [alSet, alGet]
  | cons p rest ih =>
    obtain ⟨k', v'⟩ := p
    by_cases h : k' = k
    · simp [alSet, alGet, h]
    · simp [alSet, alGet, h, ih]

theorem alContains_alSet_self {V : Type} (d : List (String × V)) (k : String) (v : V) :
    alContains (alSet d k v) k = true := by
  simp [alContains, alGet_alSet_self]

theorem alKeys_alSet_subset {V : Type} (d : List (String × V)) (k k' : String) (v : V)
    (h : k' ∈ alKeys (alSet d k v)) : k' ∈ alKeys d ∨ k' = k := by
  induction d with
  | nil => exact Or.inr (by simpa [alSet, alKeys] using h)
  | cons p rest ih =>
    obtain ⟨k₀, v₀⟩ := p
    by_cases hk : k₀ = k
    · simp only [alSet, if_pos hk, alKeys, List.map_cons, List.mem_cons] at h
      exact Or.inl (by simpa [alKeys] using h)
    · simp only [alSet, if_neg hk, alKeys, List.map_cons, List.mem_cons] at h
      rcases h with h | h
      · exact Or.inl (by simp [alKeys, h])
      · rcases ih (by simpa [alKeys] using h) with h' | h'
        · exact Or.inl (List.mem_cons_of_mem _ h')
        · exact Or.inr h'

theorem alKeys_alUpdate {V : Type} (d : List (String × V)) (k : String) (f : V → V) :
    alKeys (alUpdate d k f) = alKeys d := by
  induction d with
  | nil => rfl
  | cons p rest ih =>
    obtain ⟨k', v⟩ := p
    by_cases h : k' = k
    · simp [alUpdate, alKeys, h]
    · simp [alUpdate, alKeys, h]
      simpa [alKeys] using ih

theorem alContains_mem_alKeys {V : Type} (d : List (String × V)) (k : String)
    (h : alContains d k = true) : k ∈ alKeys d := by
  induction d with
  | nil => simp [alContains, alGet] at h
  | cons p rest ih =>
    obtain ⟨k', v⟩ := p
    by_cases hk : k' = k
    · simp [alKeys, hk]
    · simp only [alContains, alGet, if_neg hk] at h
      simp [alKeys]
      exact Or.inr (by simpa [alKeys] using ih (by simpa [alContains] using h))

theorem alSet_length_of_new {V : Type} (d : List (String × V)) (k : String) (v : V)
    (h : alContains d k = false) : (alSet d k v).length = d.length + 1 := by
  induction d with
  | nil => simp [alSet]
  | cons p rest ih =>
    obtain ⟨k', v'⟩ := p
    by_cases hk : k' = k
    · simp [alContains, alGet, hk] at h
    · simp only [alContains, alGet, if_neg hk] at h
      simp [alSet, hk, ih (by simpa [alContains] using h)]

theorem alKeys_alDel_subset {V : Type} (d : List (String × V)) (k k' : String)
    (h : k' ∈ alKeys (alDel d k)) : k' ∈ alKeys d := by
  induction d with
  | nil => simpa [alDel, alKeys] using h
  | cons p rest ih =>
    obtain ⟨k₀, v₀⟩ := p
    by_cases hk : k₀ = k
    · simp only [alDel, if_pos hk] at h
      simp [alKeys]
      exact Or.inr (by simpa [alKeys] using h)
    · simp only [alDel, if_neg hk, alKeys, List.map_cons, List.mem_cons] at h
      rcases h with h | h
      · simp [alKeys, h]
      · exact List.mem_cons_of_mem _ (ih (by simpa [alKeys] using h))

/-! ## Frontier query and snapshot round-trip lemmas -/

theorem mem_status_filter_keys (t : LinkTracker) (st : CrawlStatus) (u : String)
    (h : u ∈ (t.status.filter (fun p => p.2 = st)).map Prod.fst) : u ∈ alKeys t.status := by
  rcases List.mem_map.mp h with ⟨p, hp, rfl⟩
  exact List.mem_map_of_mem _ (List.mem_of_mem_filter hp)

theorem mem_pending_sub_status (t : LinkTracker) (u : String)
    (h : u ∈ t.get_pending_links) : u ∈ alKeys t.status := by
  unfold LinkTracker.get_pending_links at h
  by_cases hp : t.exclude_patterns = []
  · rw [if_pos hp] at h
    exact mem_status_filter_keys t _ u h
  · rw [if_neg hp] at h
    exact mem_status_filter_keys t _ u (List.mem_of_mem_filter h)

theorem mem_completed_sub_status (t : LinkTracker) (u : String)
    (h : u ∈ t.get_completed_links) : u ∈ alKeys t.status :=
  mem_status_filter_keys t _ u h

theorem mem_failed_sub_status (t : LinkTracker) (u : String)
    (h : u ∈ t.get_failed_links) : u ∈ alKeys t.status :=
  mem_status_filter_keys t _ u h

theorem saveLink_loadLink (m : LinkMetadata) (s : SavedLink) (h : saveLink m = some s) :
    loadLink s = m := by
  obtain ⟨url, sc, ct, ca, er, pc, rj, ti, sp, ri⟩ := m
  cases ri with
  | none => simp [saveLink] at h
  | some ri0 =>
    obtain ⟨fu, rc, ir⟩ := ri0
    simp only [saveLink, Option.some.injEq] at h
    subst h
    rfl

theorem saveLinks_loadLinks (ls : List (String × LinkMetadata))
    (saved : List (String × SavedLink)) (h : saveLinks ls = some saved) :
    saved.map (fun p => (p.1, loadLink p.2)) = ls := by
  induction ls generalizing saved with
  | nil =>
    simp only [saveLinks, Option.some.injEq] at h
    subst h
    rfl
  | cons p rest ih =>
    obtain ⟨k, m⟩ := p
    unfold saveLinks at h
    cases hs : saveLink m with
    | none => rw [hs] at h; simp at h
    | some s =>
      cases hr : saveLinks rest with
      | none => rw [hs, hr] at h; simp at h
      | some ss =>
        rw [hs, hr] at h
        simp only [Option.some.injEq] at h
        subst h
        simp [ih ss hr, saveLink_loadLink m s hs]

theorem statusOfValue_statusValue (s : CrawlStatus) : statusOfValue (statusValue s) = some s := by
  cases s <;> rfl

theorem loadStatuses_roundtrip (sts : List (String × CrawlStatus)) :
    loadStatuses (sts.map (fun p => (p.1, statusValue p.2))) = some sts := by
  induction sts with
  | nil => rfl
  | cons p rest ih =>
    obtain ⟨k, s⟩ := p
    simp [loadStatuses, statusOfValue_statusValue, ih]

theorem load_state_save_state (t : LinkTracker) (snap : CrawlState)
    (h : t.save_state = some snap) :
    (LinkTracker.construct t.base_url t.exclude_patterns).load_state snap = some t := by
  unfold LinkTracker.save_state at h
  cases hs : saveLinks t.links with
  | none => rw [hs] at h; simp at h
  | some saved =>
    rw [hs] at h
    simp only [Option.some.injEq] at h
    subst h
    unfold LinkTracker.load_state
    simp only [loadStatuses_roundtrip, Option.some.injEq]
    have hl := saveLinks_loadLinks t.links saved hs
    by_cases hp : t.exclude_patterns = []
    · simp [LinkTracker.construct, hl, hp]
      rw [← hp]
    · simp [LinkTracker.construct, hl, hp]

theorem filter_excluded_links_noop (t : LinkTracker)
    (h : ∀ k ∈ alKeys t.links, should_exclude_url k t.exclude_patterns = false) :
    t.filter_excluded_links = t := by
  unfold LinkTracker.filter_excluded_links
  by_cases hp : t.exclude_patterns = []
  · rw [if_pos hp]
  · rw [if_neg hp]
    have hnil : (alKeys t.links).filter (fun u => should_exclude_url u t.exclude_patterns) = [] := by
      apply List.filter_eq_nil_iff.mpr
      intro a ha
      simp [h a ha]
    rw [hnil]
    rfl

/-- The reachable-state invariant of the frontier: no tracked key (in
the links or status tables) matches the exclusion patterns. -/
def NoExcluded (t : LinkTracker) : Prop :=
  (∀ k ∈ alKeys t.links, should_exclude_url k t.exclude_patterns = false) ∧
  (∀ k ∈ alKeys t.status, should_exclude_url k t.exclude_patterns = false)

instance (t : LinkTracker) : Decidable (NoExcluded t) := by
  unfold NoExcluded
  infer_instance

theorem reload_id (t : LinkTracker) (h : NoExcluded t) : t.reload = t := by
  cases hs : t.save_state with
  | none => unfold LinkTracker.reload; simp only [hs]
  | some snap =>
    unfold LinkTracker.reload
    simp only [hs, load_state_save_state t snap hs]
    exact filter_excluded_links_noop t h.1

/-! ## Frontier operation sequences -/

/-- The frontier mutations a crawl performs (plus the snapshot
round trip `reload`). -/
inductive TrackerOp where
  | add (url : String) (now : Nat)
  | setStatus (url : String) (st : CrawlStatus) (err : Option String)
  | fromResult (r : Response) (url : String) (sp : Option ScrapeParams) (now : Nat)
  | reload

/-- Applying one operation to the frontier state. -/
def applyOp (t : LinkTracker) : TrackerOp → LinkTracker
  | .add url now => (t.add_link url now).2
  | .setStatus url st err => t.update_status url st err
  | .fromResult r url sp now => (t.update_from_result r url sp now).tracker
  | .reload => t.reload

/-- The number of `add_link` discovery attempts an operation performs
whose URL is excluded (the quantity the exclusion counter is claimed to
track). -/
def opExcludedAttempts (t : LinkTracker) : TrackerOp → Nat
  | .add url _ => if should_exclude_url (cleanUrl url) t.exclude_patterns then 1 else 0
  | .setStatus _ _ _ => 0
  | .fromResult r url sp now => (t.update_from_result r url sp now).excluded_attempts
  | .reload => 0

/-- Running a sequence of frontier operations. -/
def runOps (t : LinkTracker) (ops : List TrackerOp) : LinkTracker := ops.foldl applyOp t

/-- Total excluded discovery attempts over a run. -/
def countExcludedAttempts (t : LinkTracker) : List TrackerOp → Nat
  | [] => 0
  | op :: rest => opExcludedAttempts t op + countExcludedAttempts (applyOp t op) rest

/-! ## Per-operation lemmas -/

theorem add_link_cases (t : LinkTracker) (u : String) (n : Nat) :
    (should_exclude_url (cleanUrl u) t.exclude_patterns = true →
      t.add_link u n = (false, { t with excluded_count := t.excluded_count + 1 })) ∧
    (should_exclude_url (cleanUrl u) t.exclude_patterns = false →
      alContains t.links (cleanUrl u) = true → t.add_link u n = (false, t)) ∧
    (should_exclude_url (cleanUrl u) t.exclude_patterns = false →
      alContains t.links (cleanUrl u) = false →
      t.add_link u n = (true, { t with
        links := alSet t.links (cleanUrl u) (LinkMetadata.make (cleanUrl u)),
        status := alSet t.status (cleanUrl u) CrawlStatus.pending,
        discovered_at := alSet t.discovered_at (cleanUrl u) n })) := by
  refine ⟨fun h1 => ?_, fun h1 h2 => ?_, fun h1 h2 => ?_⟩
  · simp [LinkTracker.add_link, h1]
  · simp [LinkTracker.add_link, h1, h2]
  · simp [LinkTracker.add_link, h1, h2]

theorem add_link_state (t : LinkTracker) (u : String) (n : Nat) :
    ((t.add_link u n).2).exclude_patterns = t.exclude_patterns ∧
    ((t.add_link u n).2).excluded_count =
      t.excluded_count +
        (if should_exclude_url (cleanUrl u) t.exclude_patterns then 1 else 0) := by
  cases hex : should_exclude_url (cleanUrl u) t.exclude_patterns
  · cases hc : alContains t.links (cleanUrl u)
    · rw [(add_link_cases t u n).2.2 hex hc]; simp
    · rw [(add_link_cases t u n).2.1 hex hc]; simp
  · rw [(add_link_cases t u n).1 hex]; simp

theorem add_link_inv (t : LinkTracker) (u : String) (n : Nat) (h : NoExcluded t) :
    NoExcluded ((t.add_link u n).2) := by
  cases hex : should_exclude_url (cleanUrl u) t.exclude_patterns
  · cases hc : alContains t.links (cleanUrl u)
    · rw [(add_link_cases t u n).2.2 hex hc]
      refine ⟨fun k hk => ?_, fun k hk => ?_⟩
      · rcases alKeys_alSet_subset _ _ _ _ hk with h' | h'
        · exact h.1 k h'
        · subst h'; exact hex
      · rcases alKeys_alSet_subset _ _ _ _ hk with h' | h'
        · exact h.2 k h'
        · subst h'; exact hex
    · rw [(add_link_cases t u n).2.1 hex hc]; exact h
  · rw [(add_link_cases t u n).1 hex]; exact h

theorem update_status_keys (t : LinkTracker) (u : String) (st : CrawlStatus)
    (err : Option String) :
    (t.update_status u st err).exclude_patterns = t.exclude_patterns ∧
    (t.update_status u st err).excluded_count = t.excluded_count ∧
    alKeys (t.update_status u st err).links = alKeys t.links ∧
    (∀ k, k ∈ alKeys (t.update_status u st err).status →
      k ∈ alKeys t.status ∨ (k = cleanUrl u ∧ alContains t.links (cleanUrl u) = true)) := by
  by_cases hc : alContains t.links (cleanUrl u) = true
  · simp only [LinkTracker.update_status, if_pos hc]
    cases err with
    | none =>
      refine ⟨by simp, by simp, by simp, fun k hk => ?_⟩
      exact (alKeys_alSet_subset _ _ _ _ hk).imp id (fun h' => ⟨h', hc⟩)
    | some e =>
      by_cases he : e = ""
      · simp only [if_pos he]
        refine ⟨by simp, by simp, by simp, fun k hk => ?_⟩
        exact (alKeys_alSet_subset _ _ _ _ hk).imp id (fun h' => ⟨h', hc⟩)
      · simp only [if_neg he]
        refine ⟨by simp, by simp, by simp [alKeys_alUpdate], fun k hk => ?_⟩
        exact (alKeys_alSet_subset _ _ _ _ hk).imp id (fun h' => ⟨h', hc⟩)
  · simp only [LinkTracker.update_status, if_neg hc]
    refine ⟨by simp, by simp, by simp, fun k hk => Or.inl hk⟩

theorem update_status_inv (t : LinkTracker) (u : String) (st : CrawlStatus)
    (err : Option String) (h : NoExcluded t) : NoExcluded (t.update_status u st err) := by
  obtain ⟨hpat, _, hlinks, hstatus⟩ := update_status_keys t u st err
  refine ⟨fun k hk => ?_, fun k hk => ?_⟩
  · rw [hpat]
    exact h.1 k (hlinks ▸ hk)
  · rw [hpat]
    rcases hstatus k hk with h' | ⟨rfl, hcon⟩
    · exact h.2 k h'
    · exact h.1 _ (alContains_mem_alKeys _ _ hcon)

theorem record_result_inv (t1 : LinkTracker) (k : String) (m : LinkMetadata)
    (hmem : alContains t1.links k = true) (h : NoExcluded t1) :
    NoExcluded { t1 with links := alSet t1.links k m,
                         status := alSet t1.status k CrawlStatus.completed } := by
  refine ⟨fun x hx => ?_, fun x hx => ?_⟩
  · rcases alKeys_alSet_subset _ _ _ _ hx with h' | h'
    · exact h.1 x h'
    · subst h'; exact h.1 _ (alContains_mem_alKeys _ _ hmem)
  · rcases alKeys_alSet_subset _ _ _ _ hx with h' | h'
    · exact h.2 x h'
    · subst h'; exact h.1 _ (alContains_mem_alKeys _ _ hmem)

theorem ufrRedirect_state (t2 : LinkTracker) (ri : RedirectInfo) (now : Nat) (exc1 : Nat) :
    ∃ d, (ufrRedirect t2 ri now exc1).excluded_attempts = exc1 + d ∧
      (ufrRedirect t2 ri now exc1).tracker.excluded_count = t2.excluded_count + d ∧
      (ufrRedirect t2 ri now exc1).tracker.exclude_patterns = t2.exclude_patterns ∧
      (NoExcluded t2 → NoExcluded (ufrRedirect t2 ri now exc1).tracker) := by
  unfold ufrRedirect
  cases hr : ri.is_redirected with
  | false => exact ⟨0, rfl, rfl, rfl, fun h => h⟩
  | true =>
    cases hfu : ri.final_url with
    | none => exact ⟨0, rfl, rfl, rfl, fun h => h⟩
    | some fu =>
      by_cases hdom : fu ≠ "" ∧ get_domain fu = t2.domain
      · simp only [if_pos hdom]
        by_cases hc : alContains t2.links (cleanUrl fu) = true
        · simp only [hc, if_true]
          exact ⟨0, rfl, rfl, trivial, fun h => h⟩
        · simp only [eq_false_of_ne_true hc, Bool.false_eq_true, if_false]
          refine ⟨if should_exclude_url (cleanUrl (cleanUrl fu)) t2.exclude_patterns then 1 else 0,
            rfl, ?_, (add_link_state t2 (cleanUrl fu) now).1, fun h => add_link_inv _ _ _ h⟩
          exact (add_link_state t2 (cleanUrl fu) now).2
      · simp only [if_neg hdom]
        exact ⟨0, rfl, rfl, trivial, fun h => h⟩

theorem ufrFinish_state (t1 : LinkTracker) (k : String) (result : Response)
    (sp : Option ScrapeParams) (now : Nat) (exc1 : Nat) :
    ∃ d, (ufrFinish t1 k result sp now exc1).excluded_attempts = exc1 + d ∧
      (ufrFinish t1 k result sp now exc1).tracker.excluded_count = t1.excluded_count + d ∧
      (ufrFinish t1 k result sp now exc1).tracker.exclude_patterns = t1.exclude_patterns ∧
      (NoExcluded t1 → NoExcluded (ufrFinish t1 k result sp now exc1).tracker) := by
  unfold ufrFinish
  cases hg : alGet t1.links k with
  | none => exact ⟨0, rfl, rfl, rfl, fun h => h⟩
  | some metadata0 =>
    have hmem : alContains t1.links k = true := by simp [alContains, hg]
    obtain ⟨d, h1, h2, h3, h4⟩ := ufrRedirect_state
      { t1 with
        links := alSet t1.links k
          { metadata0 with
            status_code := some result.status_code,
            content_type := result.content_type,
            crawled_at := some now,
            redirect_info := some (if result.history.isEmpty then
              { final_url := some k, redirect_chain := [], is_redirected := false }
            else
              { final_url := some result.url, redirect_chain := result.history,
                is_redirected := true }),
            scrape_params := sp.getD ScrapeParams.empty,
            render_js := some (sp.getD ScrapeParams.empty).getRenderJs },
        status := alSet t1.status k CrawlStatus.completed }
      (if result.history.isEmpty then
        { final_url := some k, redirect_chain := [], is_redirected := false }
      else
        { final_url := some result.url, redirect_chain := result.history,
          is_redirected := true })
      now exc1
    exact ⟨d, h1, h2, h3, fun h => h4 (record_result_inv t1 k _ hmem h)⟩

theorem update_from_result_state (t : LinkTracker) (r : Response) (u : String)
    (sp : Option ScrapeParams) (n : Nat) :
    ((t.update_from_result r u sp n).tracker).exclude_patterns = t.exclude_patterns ∧
    ((t.update_from_result r u sp n).tracker).excluded_count =
      t.excluded_count + (t.update_from_result r u sp n).excluded_attempts ∧
    (NoExcluded t → NoExcluded ((t.update_from_result r u sp n).tracker)) := by
  unfold LinkTracker.update_from_result
  by_cases hc : alContains t.links (cleanUrl u) = true
  · simp only [hc, if_true]
    obtain ⟨d, h1, h2, h3, h4⟩ := ufrFinish_state t (cleanUrl u) r sp n 0
    exact ⟨h3, by rw [h2, h1]; omega, h4⟩
  · simp only [eq_false_of_ne_true hc, Bool.false_eq_true, if_false]
    obtain ⟨hpat, hcount⟩ := add_link_state t (cleanUrl u) n
    obtain ⟨d, h1, h2, h3, h4⟩ := ufrFinish_state ((t.add_link (cleanUrl u) n).2) (cleanUrl u) r sp n
      (if should_exclude_url (cleanUrl (cleanUrl u)) t.exclude_patterns then 1 else 0)
    refine ⟨h3.trans hpat, ?_, fun h => h4 (add_link_inv t (cleanUrl u) n h)⟩
    rw [h2, hcount, h1]
    omega

theorem runOps_state (t : LinkTracker) (ops : List TrackerOp) (h : NoExcluded t) :
    NoExcluded (runOps t ops) ∧
    (runOps t ops).exclude_patterns = t.exclude_patterns ∧
    (runOps t ops).excluded_count = t.excluded_count + countExcludedAttempts t ops := by
  induction ops generalizing t with
  | nil => exact ⟨h, rfl, rfl⟩
  | cons op rest ih =>
    have hstep : NoExcluded (applyOp t op) ∧
        (applyOp t op).exclude_patterns = t.exclude_patterns ∧
        (applyOp t op).excluded_count = t.excluded_count + opExcludedAttempts t op := by
      cases op with
      | add url now =>
        exact ⟨add_link_inv t url now h, (add_link_state t url now).1,
          (add_link_state t url now).2⟩
      | setStatus url st err =>
        obtain ⟨hp, hcnt, _, _⟩ := update_status_keys t url st err
        exact ⟨update_status_inv t url st err h, hp, by simp [applyOp, opExcludedAttempts, hcnt]⟩
      | fromResult r url sp now =>
        obtain ⟨hp, hcnt, hinv⟩ := update_from_result_state t r url sp now
        exact ⟨hinv h, hp, hcnt⟩
      | reload =>
        refine ⟨?_, ?_, ?_⟩
        · show NoExcluded t.reload
          rw [reload_id t h]; exact h
        · show (t.reload).exclude_patterns = _
          rw [reload_id t h]
        · show (t.reload).excluded_count = _
          rw [reload_id t h]
          simp [opExcludedAttempts]
    obtain ⟨i1, i2, i3⟩ := ih (applyOp t op) hstep.1
    refine ⟨i1, ?_, ?_⟩
    · exact i2.trans hstep.2.1
    · show (runOps (applyOp t op) rest).excluded_count = _
      rw [i3, hstep.2.2]
      show _ = t.excluded_count + (opExcludedAttempts t op + countExcludedAttempts (applyOp t op) rest)
      omega

/-! ## Retry-loop and controller lemmas -/

theorem swrGo_attempts_le (oracle : Nat → ScrapeCall) (jitter : Nat → Int) (url : String)
    (max_retries : Nat) (base_delay : Int) :
    ∀ (fuel attempt req : Nat) (sleeps : List Int),
      (swrGo oracle jitter url max_retries base_delay attempt req sleeps fuel).attempts ≤
        attempt + fuel := by
  intro fuel
  induction fuel with
  | zero => intro attempt req sleeps; simp [swrGo]
  | succ fuel ih =>
    intro attempt req sleeps
    simp only [swrGo]
    repeat' split
    all_goals
      first
        | exact le_trans (ih _ _ _) (by omega)
        | (simp only [SwrOut.mk.injEq]; omega)

theorem update_concurrency_fields (rl : RateLimiter) (sc : Int) (ra : Option Int) :
    (rl.update_concurrency sc ra).min_concurrency = rl.min_concurrency ∧
    (rl.update_concurrency sc ra).max_concurrency = rl.max_concurrency := by
  unfold RateLimiter.update_concurrency
  split <;> exact ⟨rfl, rfl⟩

theorem update_concurrency_bounds (rl : RateLimiter) (sc : Int) (ra : Option Int)
    (hmm : rl.min_concurrency ≤ rl.max_concurrency)
    (hlo : rl.min_concurrency ≤ rl.concurrency)
    (hhi : rl.concurrency ≤ rl.max_concurrency) :
    rl.min_concurrency ≤ (rl.update_concurrency sc ra).concurrency ∧
    (rl.update_concurrency sc ra).concurrency ≤ rl.max_concurrency := by
  unfold RateLimiter.update_concurrency
  split
  · exact ⟨le_max_left _ _, max_le hmm (by omega)⟩
  · constructor
    · show rl.min_concurrency ≤
        (if (0 : Nat) = 0 then min rl.max_concurrency (rl.concurrency + 1) else rl.concurrency)
      rw [if_pos rfl]
      exact le_min hmm (by omega)
    · show (if (0 : Nat) = 0 then min rl.max_concurrency (rl.concurrency + 1) else rl.concurrency) ≤
        rl.max_concurrency
      rw [if_pos rfl]
      exact min_le_left _ _

theorem rate_limiter_run_fields (rl : RateLimiter) (calls : List (Int × Option Int)) :
    (rl.run calls).min_concurrency = rl.min_concurrency ∧
    (rl.run calls).max_concurrency = rl.max_concurrency := by
  induction calls generalizing rl with
  | nil => exact ⟨rfl, rfl⟩
  | cons c rest ih =>
    have hf := update_concurrency_fields rl c.1 c.2
    have hr := ih (rl.update_concurrency c.1 c.2)
    exact ⟨hr.1.trans hf.1, hr.2.trans hf.2⟩

theorem rate_limiter_run_bounds (rl : RateLimiter) (calls : List (Int × Option Int))
    (hmm : rl.min_concurrency ≤ rl.max_concurrency)
    (hlo : rl.min_concurrency ≤ rl.concurrency)
    (hhi : rl.concurrency ≤ rl.max_concurrency) :
    rl.min_concurrency ≤ (rl.run calls).concurrency ∧
    (rl.run calls).concurrency ≤ rl.max_concurrency := by
  induction calls generalizing rl with
  | nil => exact ⟨hlo, hhi⟩
  | cons c rest ih =>
    have hf := update_concurrency_fields rl c.1 c.2
    have hb := update_concurrency_bounds rl c.1 c.2 hmm hlo hhi
    have hrec := ih (rl.update_concurrency c.1 c.2)
      (by rw [hf.1, hf.2]; exact hmm) (by rw [hf.1]; exact hb.1) (by rw [hf.2]; exact hb.2)
    exact ⟨hf.1 ▸ hrec.1, hf.2 ▸ hrec.2⟩

/-! ## Small helpers for the claim theorems -/

theorem ufrRedirect_raised (t2 : LinkTracker) (ri : RedirectInfo) (now exc1 : Nat) :
    (ufrRedirect t2 ri now exc1).raised = false := by
  unfold ufrRedirect
  split
  · split
    · dsimp only
      split <;> rfl
    · rfl
  · rfl

theorem ufrFinish_none (t1 : LinkTracker) (k : String) (result : Response)
    (sp : Option ScrapeParams) (now exc1 : Nat) (h : alGet t1.links k = none) :
    ufrFinish t1 k result sp now exc1 = ⟨true, t1, exc1⟩ := by
  unfold ufrFinish
  rw [h]

theorem ufrFinish_raised (t1 : LinkTracker) (k : String) (result : Response)
    (sp : Option ScrapeParams) (now exc1 : Nat) :
    (ufrFinish t1 k result sp now exc1).raised = !(alContains t1.links k) := by
  unfold ufrFinish
  cases hg : alGet t1.links k with
  | none => simp [alContains, hg]
  | some m => simp [alContains, hg, ufrRedirect_raised]

/-! ## The claims -/

/-- Claim C1 (code bug): the snapshot round trip cannot even start on a
frontier holding a freshly discovered PENDING link. `save_state` reads
`metadata.final_url` (and `redirect_chain`, `is_redirected`), but
`models.LinkMetadata` does not declare those dataclass fields and
`add_link` never assigns them, so serializing any record that has not
passed through `update_from_result`/`load_state` raises
`AttributeError` (modelled as `none`) instead of producing a snapshot.
(`generate_state.py`'s own minimal `LinkMetadata` declares exactly
these three missing fields, confirming the intent.) -/
theorem save_state_raises_on_fresh_pending_link :
    (((LinkTracker.construct "http://example.com/" []).add_link
        "http://example.com/a" 0).2).save_state = none := by
  decide

/-- The scripted transport of the claim C2 scenario: the first request
is answered 429 with `Retry-After: 2`, every later one 200 (`text/html`)
with two in-domain links and one out-of-domain link in the body. -/
def c2_response_200 : Response :=
  { status_code := 200, retry_after := none, location := none,
    content_type := some "text/html", url := "http://example.com/",
    history := [], content := "<html>",
    raw_links := ["http://example.com/a", "http://example.com/b",
                  "http://other.com/c"] }

/-- See `c2_response_200`; the first scripted call is the 429. -/
def c2_oracle : Nat → ScrapeCall := fun n =>
  if n = 0 then
    .ok { status_code := 429, retry_after := some 2, location := none,
          content_type := some "text/html", url := "http://example.com/",
          history := [], content := "", raw_links := [] }
  else .ok c2_response_200

/-- The frontier of the claim C2 scenario after seeding the start URL. -/
def c2_tracker : LinkTracker :=
  ((LinkTracker.construct "http://example.com/" []).add_link "http://example.com/" 0).2

/-- The controller of the claim C2 scenario: concurrency 2 in bounds
`[1, 5]`, no pending delay. -/
def c2_limiter : RateLimiter :=
  RateLimiter.construct (some 2) { max_concurrency := 5 }

/-- The complete `scrape_url` run of the claim C2 scenario
(max_retries 3, base_delay 1, backoff jitter fixed at 2). -/
def c2_out : ScrapeUrlOut :=
  scrape_url c2_oracle (fun _ => 2) 3 1 "http://example.com/" c2_tracker c2_limiter 1

/-- Claim C2, counterexample: in the 429-then-200 scenario the
controller is updated only with the final 200 response, so after the
fetch `pending_delay` is NOT 2s and `concurrency` has NOT decreased by
1 (it is `none` and 3 = 2 + 1 respectively). -/
theorem scenario_429_controller_counterexample :
    ¬ (c2_out.limiter.last_retry_after = some 2 ∧
       c2_out.limiter.concurrency = c2_limiter.concurrency - 1) := by
  decide

/-- Claim C2, amended: the intermediate 429's `Retry-After: 2` is
honoured by a 2-second sleep inside `scrape_with_retry` itself (followed
by the attempt-1 backoff sleep `1·2¹ + jitter`), the fetch completes
with the 200 response after two attempts, and the controller — updated
once, with the final 200 — keeps its pending delay unchanged (`none`)
and increases `concurrency` by 1. -/
theorem scenario_429_controller_amended :
    (scrape_with_retry c2_oracle (fun _ => 2) "http://example.com/" 3 1).sleeps = [2, 4] ∧
    (scrape_with_retry c2_oracle (fun _ => 2) "http://example.com/" 3 1).attempts = 2 ∧
    (scrape_with_retry c2_oracle (fun _ => 2) "http://example.com/" 3 1).result =
      some c2_response_200 ∧
    c2_out.limiter.last_retry_after = none ∧
    c2_out.limiter.concurrency = c2_limiter.concurrency + 1 := by
  decide

/-- Claim C3, counterexample: a `RateLimiter` constructed with
`initial_concurrency = 3` under the default environment (`min = max =
1`) leaves `[min, max]` after a single `update_concurrency(429)` call:
the concurrency becomes `max(1, 3 - 1) = 2 > max_concurrency = 1`. The
constructor never clamps the initial concurrency into the configured
bounds. -/
theorem rate_limiter_escapes_bounds_counterexample :
    ((RateLimiter.construct (some 3) {}).update_concurrency 429 none).concurrency = 2 ∧
    ((RateLimiter.construct (some 3) {}).update_concurrency 429 none).max_concurrency = 1 ∧
    ¬ (((RateLimiter.construct (some 3) {}).update_concurrency 429 none).concurrency ≤
        ((RateLimiter.construct (some 3) {}).update_concurrency 429 none).max_concurrency) := by
  decide

/-- Claim C3, amended: for every `RateLimiter` whose configured bounds
are coherent (`min ≤ max`) and whose concurrency starts inside
`[min, max]`, every finite sequence of `update_concurrency` calls with
arbitrary status codes and retry-after values keeps `concurrency`
within `[min, max]` after every call. -/
theorem rate_limiter_bounds_invariant (rl : RateLimiter) (calls : List (Int × Option Int))
    (hmm : rl.min_concurrency ≤ rl.max_concurrency)
    (hlo : rl.min_concurrency ≤ rl.concurrency)
    (hhi : rl.concurrency ≤ rl.max_concurrency) :
    rl.min_concurrency ≤ (rl.run calls).concurrency ∧
    (rl.run calls).concurrency ≤ rl.max_concurrency :=
  rate_limiter_run_bounds rl calls hmm hlo hhi

/-- Witness for the amended claim C3 at a concrete controller (bounds
`[1, 1]`, concurrency 1) and call sequence 429 then 200. -/
theorem rate_limiter_bounds_invariant_witness :
    (RateLimiter.construct (some 1) {}).min_concurrency ≤
      ((RateLimiter.construct (some 1) {}).run [(429, some 7), (200, none)]).concurrency ∧
    ((RateLimiter.construct (some 1) {}).run [(429, some 7), (200, none)]).concurrency ≤
      (RateLimiter.construct (some 1) {}).max_concurrency :=
  rate_limiter_bounds_invariant (RateLimiter.construct (some 1) {})
    [(429, some 7), (200, none)] (by decide) (by decide) (by decide)

/-- The response of the claim C4 counterexample: a 200 whose
content-type is `image/png`. -/
def c4_response : Response :=
  { status_code := 200, retry_after := none, location := none,
    content_type := some "image/png", url := "http://example.com/pic",
    history := [], content := "PNG", raw_links := [] }

/-- The transport of the claim C4 run. -/
def c4_oracle : Nat → ScrapeCall := fun _ => .ok c4_response

/-- The frontier of the claim C4 run: the fetched URL is tracked and
IN_PROGRESS, as the orchestrator leaves it right before dispatching. -/
def c4_tracker : LinkTracker :=
  (((LinkTracker.construct "http://example.com/" []).add_link
      "http://example.com/pic" 0).2).update_status
    "http://example.com/pic" CrawlStatus.in_progress none

/-- The claim C4 run. -/
def c4_out : ScrapeUrlOut :=
  scrape_url c4_oracle (fun _ => 2) 3 1 "http://example.com/pic" c4_tracker
    (RateLimiter.construct (some 1) {}) 1

/-- Claim C4, counterexample: for a fetched URL whose response has a
binary content-type, the body is indeed not appended to the output log
(`data = none`), but the fetch outcome is NOT recorded in frontier
state: `scrape_url` returns the tracker exactly as it was, the URL
still IN_PROGRESS and its link record untouched. -/
theorem binary_response_counterexample :
    c4_out.data = none ∧
    c4_out.tracker = c4_tracker ∧
    alGet c4_out.tracker.status "http://example.com/pic" =
      some CrawlStatus.in_progress := by
  decide

/-- Claim C4, amended: binary responses are kept out of the output log
AND out of the frontier. A URL with a binary file extension is skipped
before any fetch (`scrape_url` returns no record and leaves tracker and
controller untouched); a fetched URL whose response carries a binary
content-type (and is not a 4xx) yields no output record and leaves the
frontier exactly unchanged — no link record or status update occurs. -/
theorem binary_responses_not_recorded
    (oracle : Nat → ScrapeCall) (jitter : Nat → Int) (mr : Nat) (bd : Int)
    (url : String) (t : LinkTracker) (rl : RateLimiter) (now : Nat)
    (hnex : should_exclude_url url t.exclude_patterns = false) :
    (binary_url_exts.any (fun e => strContains (strLower url) e) = true →
      scrape_url oracle jitter mr bd url t rl now = ⟨none, t, rl⟩) ∧
    (∀ r, binary_url_exts.any (fun e => strContains (strLower url) e) = false →
      (scrape_with_retry oracle jitter url mr bd).result = some r →
      ¬ (400 ≤ r.status_code ∧ r.status_code < 500) →
      binary_content_types.any
        (fun b => strContains (strLower (r.content_type.getD "")) b) = true →
      (scrape_url oracle jitter mr bd url t rl now).data = none ∧
      (scrape_url oracle jitter mr bd url t rl now).tracker = t) := by
  constructor
  · intro hbin
    simp [scrape_url, hnex, hbin]
  · intro r hbin hres h4 hct
    constructor <;> simp [scrape_url, hnex, hbin, hres, if_neg h4, hct]

/-- Witness for the amended claim C4 at the concrete binary-content
run `c4_out`. -/
theorem binary_responses_not_recorded_witness :
    should_exclude_url "http://example.com/pic" c4_tracker.exclude_patterns = false ∧
    (c4_out.data = none ∧ c4_out.tracker = c4_tracker) :=
  ⟨by decide,
   (binary_responses_not_recorded c4_oracle (fun _ => 2) 3 1 "http://example.com/pic"
      c4_tracker (RateLimiter.construct (some 1) {}) 1 (by decide)).2 c4_response
      (by decide) (by decide) (by decide) (by decide)⟩

/-- The frontier of the claim C5 counterexample: two pending URLs
discovered in the order a, b. -/
def c5_tracker : LinkTracker :=
  (((LinkTracker.construct "http://example.com/" []).add_link
      "http://example.com/a" 0).2.add_link "http://example.com/b" 1).2

/-- Claim C5, counterexample: the batch is taken from
`list(tracker.get_pending_links())`, and `get_pending_links` returns a
Python set, whose enumeration order is unspecified (string hashing is
randomized per process). The reversed enumeration `[b, a]` is a valid
set order, yet taking 1 from it does not yield the earliest-discovered
pending URL, refuting "taken in insertion order of discovery". -/
theorem batch_order_counterexample :
    c5_tracker.get_pending_links = ["http://example.com/a", "http://example.com/b"] ∧
    ValidEnum c5_tracker ["http://example.com/b", "http://example.com/a"] ∧
    select_batch ["http://example.com/b", "http://example.com/a"] 1 ≠
      (c5_tracker.get_pending_links).take 1 := by
  refine ⟨by decide, ?_, by decide⟩
  show List.Perm _ _
  decide

/-- Claim C5, amended: in every iteration the selected batch consists
of at most `concurrency` keys, each of them pending (and not excluded);
the order within the batch is the Python set's unspecified enumeration
order, with no insertion-order guarantee. -/
theorem batch_is_bounded_sublist_of_pending (t : LinkTracker) (enum : List String)
    (conc : Nat) (h : ValidEnum t enum) :
    (select_batch enum conc).length ≤ conc ∧
    ∀ u ∈ select_batch enum conc, u ∈ t.get_pending_links := by
  refine ⟨?_, fun u hu => ?_⟩
  · simpa [select_batch] using List.length_take_le conc enum
  · exact h.mem_iff.mp (List.mem_of_mem_take hu)

/-- Witness for the amended claim C5 at the two-URL frontier and the
reversed enumeration. -/
theorem batch_is_bounded_sublist_of_pending_witness :
    (select_batch ["http://example.com/b", "http://example.com/a"] 1).length ≤ 1 ∧
    ∀ u ∈ select_batch ["http://example.com/b", "http://example.com/a"] 1,
      u ∈ c5_tracker.get_pending_links :=
  batch_is_bounded_sublist_of_pending c5_tracker
    ["http://example.com/b", "http://example.com/a"] 1
    (by show List.Perm _ _; decide)

/-- The transport of the claim C6 counterexample: 429 first, then 200. -/
def c6_oracle : Nat → ScrapeCall := fun n =>
  if n = 0 then
    .ok { status_code := 429, retry_after := some 7, location := none,
          content_type := some "text/html", url := "http://example.com/x",
          history := [], content := "", raw_links := [] }
  else
    .ok { status_code := 200, retry_after := none, location := none,
          content_type := some "text/html", url := "http://example.com/x",
          history := [], content := "", raw_links := [] }

/-- Claim C6, counterexample: 429 is a 4xx status code, and a 429 on
attempt 0 IS retried: with `max_retries = 3` and a transport answering
429 then 200, `scrape_with_retry` enters attempt 1 (two attempts in
total), refuting "a 4xx on attempt 0 never triggers attempt 1". -/
theorem retry_4xx_429_counterexample :
    (∃ r, c6_oracle 0 = .ok r ∧ r.status_code = 429 ∧
      400 ≤ r.status_code ∧ r.status_code < 500) ∧
    (scrape_with_retry c6_oracle (fun _ => 2) "http://example.com/x" 3 1).attempts = 2 ∧
    (scrape_with_retry c6_oracle (fun _ => 2) "http://example.com/x" 3 1).attempts ≠ 1 := by
  refine ⟨⟨{ status_code := 429, retry_after := some 7, location := none,
             content_type := some "text/html", url := "http://example.com/x",
             history := [], content := "", raw_links := [] }, by decide⟩, by decide, by decide⟩

/-- Claim C6, amended: `scrape_with_retry` with `max_retries = N`
enters at most N attempts of its retry loop; and when the response to
attempt 0 has a 4xx status code OTHER THAN 429, it is returned
immediately — exactly one attempt and one transport request happen and
no attempt 1 (nor any further request) ever occurs. (429, although a
4xx, takes the rate-limit retry path, as the counterexample shows.) -/
theorem retry_bound_and_non429_4xx_immediate
    (oracle : Nat → ScrapeCall) (jitter : Nat → Int) (url : String)
    (max_retries : Nat) (base_delay : Int) :
    (scrape_with_retry oracle jitter url max_retries base_delay).attempts ≤ max_retries ∧
    (∀ r, oracle 0 = .ok r → 400 ≤ r.status_code → r.status_code < 500 →
      r.status_code ≠ 429 → 0 < max_retries →
      scrape_with_retry oracle jitter url max_retries base_delay =
        ⟨some r, 1, 1, []⟩) := by
  constructor
  · simpa using swrGo_attempts_le oracle jitter url max_retries base_delay max_retries 0 0 []
  · intro r h0 h4a h4b h429 hmr
    obtain ⟨k, rfl⟩ : ∃ k, max_retries = k + 1 := ⟨max_retries - 1, by omega⟩
    have hcl : swrClassify oracle (k + 1) base_delay 0 1 r = (.retOk r, 1) := by
      unfold swrClassify
      rw [if_neg (by omega : ¬ r.status_code = 301)]
      rw [if_neg (by omega : ¬ (500 ≤ r.status_code ∧ r.status_code < 600))]
      rw [if_neg h429]
    unfold scrape_with_retry
    simp [swrGo, h0, hcl]

/-- The transport of the claim C6 witness: a plain 404. -/
def c6w_response : Response :=
  { status_code := 404, retry_after := none, location := none,
    content_type := some "text/html", url := "http://example.com/gone",
    history := [], content := "", raw_links := [] }

/-- Witness for the amended claim C6: with a 404 on attempt 0 the
policy stops after exactly one attempt and one request. -/
theorem retry_bound_and_non429_4xx_immediate_witness :
    (scrape_with_retry (fun _ => .ok c6w_response) (fun _ => 2)
        "http://example.com/gone" 3 1).attempts ≤ 3 ∧
    scrape_with_retry (fun _ => .ok c6w_response) (fun _ => 2)
        "http://example.com/gone" 3 1 = ⟨some c6w_response, 1, 1, []⟩ :=
  have h := retry_bound_and_non429_4xx_immediate (fun _ => .ok c6w_response) (fun _ => 2)
    "http://example.com/gone" 3 1
  ⟨h.1, h.2 c6w_response rfl (by decide) (by decide) (by decide) (by decide)⟩

theorem alGet_eq_none_of_not_contains {V : Type} (d : List (String × V)) (k : String)
    (h : alContains d k = false) : alGet d k = none := by
  unfold alContains at h
  cases hg : alGet d k with
  | none => rfl
  | some v => rw [hg] at h; simp at h

/-- Claim C7: exclusion is absolute. Starting from any frontier none of
whose tracked keys matches the exclusion patterns (in particular a
fresh one), after any sequence of frontier operations (`add_link`,
`update_status`, `update_from_result`, snapshot save+load+filter) an
excluded URL's key is never an element of `get_pending_links`,
`get_completed_links` or `get_failed_links`, and the exclusion counter
has increased by exactly the number of excluded `add_link` discovery
attempts performed (re-discoveries are themselves such attempts and
each counts once; nothing else moves the counter). -/
theorem excluded_url_never_tracked
    (t0 : LinkTracker) (ops : List TrackerOp) (u : String)
    (hinv : NoExcluded t0)
    (hex : should_exclude_url (cleanUrl u) t0.exclude_patterns = true) :
    cleanUrl u ∉ (runOps t0 ops).get_pending_links ∧
    cleanUrl u ∉ (runOps t0 ops).get_completed_links ∧
    cleanUrl u ∉ (runOps t0 ops).get_failed_links ∧
    (runOps t0 ops).excluded_count = t0.excluded_count + countExcludedAttempts t0 ops := by
  obtain ⟨hinv', hpat, hcnt⟩ := runOps_state t0 ops hinv
  have hkey : cleanUrl u ∉ alKeys (runOps t0 ops).status := by
    intro hk
    have hfalse := hinv'.2 _ hk
    rw [hpat, hex] at hfalse
    exact absurd hfalse (by decide)
  exact ⟨fun hm => hkey (mem_pending_sub_status _ _ hm),
         fun hm => hkey (mem_completed_sub_status _ _ hm),
         fun hm => hkey (mem_failed_sub_status _ _ hm), hcnt⟩

/-- The frontier of the claim C7 witness. -/
def c7_t0 : LinkTracker := LinkTracker.construct "http://example.com/" ["/private/"]

/-- The operation sequence of the claim C7 witness: an excluded
discovery, a normal discovery, a status transition and a snapshot
round trip. -/
def c7_ops : List TrackerOp :=
  [TrackerOp.add "http://example.com/private/x" 0,
   TrackerOp.add "http://example.com/a" 1,
   TrackerOp.setStatus "http://example.com/a" CrawlStatus.in_progress none,
   TrackerOp.reload]

/-- Witness for claim C7 at a concrete frontier and operation
sequence. -/
theorem excluded_url_never_tracked_witness :
    (NoExcluded c7_t0 ∧
     should_exclude_url (cleanUrl "http://example.com/private/x")
       c7_t0.exclude_patterns = true) ∧
    (cleanUrl "http://example.com/private/x" ∉ (runOps c7_t0 c7_ops).get_pending_links ∧
     cleanUrl "http://example.com/private/x" ∉ (runOps c7_t0 c7_ops).get_completed_links ∧
     cleanUrl "http://example.com/private/x" ∉ (runOps c7_t0 c7_ops).get_failed_links ∧
     (runOps c7_t0 c7_ops).excluded_count =
       c7_t0.excluded_count + countExcludedAttempts c7_t0 c7_ops) :=
  ⟨⟨by decide, by decide⟩,
   excluded_url_never_tracked c7_t0 c7_ops "http://example.com/private/x"
     (by decide) (by decide)⟩

/-- Claim C8: `add_link` is idempotent per normalized key. For two raw
URLs normalizing to the same non-excluded, not-yet-tracked key, the
first call returns true and creates exactly one PENDING record stamped
with the current timestamp, and the second call returns false and
changes nothing. -/
theorem add_link_idempotent_per_key
    (t : LinkTracker) (u1 u2 : String) (n1 n2 : Nat)
    (hnex : should_exclude_url (cleanUrl u1) t.exclude_patterns = false)
    (hnew : alContains t.links (cleanUrl u1) = false)
    (hsame : cleanUrl u2 = cleanUrl u1) :
    (t.add_link u1 n1).1 = true ∧
    ((t.add_link u1 n1).2).links.length = t.links.length + 1 ∧
    alGet ((t.add_link u1 n1).2).status (cleanUrl u1) = some CrawlStatus.pending ∧
    alGet ((t.add_link u1 n1).2).discovered_at (cleanUrl u1) = some n1 ∧
    ((t.add_link u1 n1).2).add_link u2 n2 = (false, (t.add_link u1 n1).2) := by
  have h1 := (add_link_cases t u1 n1).2.2 hnex hnew
  refine ⟨?_, ?_, ?_, ?_, ?_⟩
  · rw [h1]
  · rw [h1]; exact alSet_length_of_new _ _ _ hnew
  · rw [h1]; exact alGet_alSet_self _ _ _
  · rw [h1]; exact alGet_alSet_self _ _ _
  · rw [h1]
    exact (add_link_cases _ u2 n2).2.1
      (by rw [hsame]; exact hnex)
      (by rw [hsame]; exact alContains_alSet_self _ _ _)

/-- Witness for claim C8: two raw spellings of the same key (a
tracking parameter versus a fragment). -/
theorem add_link_idempotent_per_key_witness :
    (should_exclude_url (cleanUrl "http://example.com/a?utm_source=x")
        (LinkTracker.construct "http://example.com/" []).exclude_patterns = false ∧
     alContains (LinkTracker.construct "http://example.com/" []).links
        (cleanUrl "http://example.com/a?utm_source=x") = false ∧
     cleanUrl "http://example.com/a#frag" = cleanUrl "http://example.com/a?utm_source=x") ∧
    (((LinkTracker.construct "http://example.com/" []).add_link
        "http://example.com/a?utm_source=x" 5).1 = true ∧
     (((LinkTracker.construct "http://example.com/" []).add_link
        "http://example.com/a?utm_source=x" 5).2).links.length =
       (LinkTracker.construct "http://example.com/" []).links.length + 1 ∧
     alGet (((LinkTracker.construct "http://example.com/" []).add_link
        "http://example.com/a?utm_source=x" 5).2).status
        (cleanUrl "http://example.com/a?utm_source=x") = some CrawlStatus.pending ∧
     alGet (((LinkTracker.construct "http://example.com/" []).add_link
        "http://example.com/a?utm_source=x" 5).2).discovered_at
        (cleanUrl "http://example.com/a?utm_source=x") = some 5 ∧
     (((LinkTracker.construct "http://example.com/" []).add_link
        "http://example.com/a?utm_source=x" 5).2).add_link "http://example.com/a#frag" 6 =
       (false, ((LinkTracker.construct "http://example.com/" []).add_link
        "http://example.com/a?utm_source=x" 5).2)) :=
  ⟨⟨by decide, by decide, by decide⟩,
   add_link_idempotent_per_key (LinkTracker.construct "http://example.com/" [])
     "http://example.com/a?utm_source=x" "http://example.com/a#frag" 5 6
     (by decide) (by decide) (by decide)⟩

/-- Claim C9: the internal `self.links[clean_url]` lookup of
`update_from_result` cannot fail when the URL is already tracked or
matches no exclusion pattern (given the idempotence of normalization on
that URL); and for an untracked URL matching an exclusion pattern the
refused internal `add_link` leaves the key absent, so the lookup raises
`KeyError` and no success is recorded — the state at the raise point is
the original frontier with only the exclusion counter bumped. -/
theorem update_from_result_lookup_safety
    (t : LinkTracker) (r : Response) (u : String) (sp : Option ScrapeParams) (now : Nat)
    (hid : cleanUrl (cleanUrl u) = cleanUrl u) :
    ((alContains t.links (cleanUrl u) = true ∨
      should_exclude_url (cleanUrl u) t.exclude_patterns = false) →
      (t.update_from_result r u sp now).raised = false) ∧
    (alContains t.links (cleanUrl u) = false →
     should_exclude_url (cleanUrl u) t.exclude_patterns = true →
      (t.update_from_result r u sp now).raised = true ∧
      (t.update_from_result r u sp now).tracker =
        { t with excluded_count := t.excluded_count + 1 }) := by
  unfold LinkTracker.update_from_result
  constructor
  · intro hok
    by_cases hc : alContains t.links (cleanUrl u) = true
    · simp only [hc, if_true, ufrFinish_raised, Bool.not_true]
    · have hcf : alContains t.links (cleanUrl u) = false := eq_false_of_ne_true hc
      have hnex : should_exclude_url (cleanUrl u) t.exclude_patterns = false :=
        hok.resolve_left hc
      simp only [hcf, Bool.false_eq_true, if_false]
      rw [(add_link_cases t (cleanUrl u) now).2.2
        (by rw [hid]; exact hnex) (by rw [hid]; exact hcf)]
      rw [ufrFinish_raised]
      rw [show alContains (alSet t.links (cleanUrl (cleanUrl u))
            (LinkMetadata.make (cleanUrl (cleanUrl u)))) (cleanUrl u) = true from by
          rw [hid]; exact alContains_alSet_self _ _ _]
      rfl
  · intro hcf hexc
    have h1 := (add_link_cases t (cleanUrl u) now).1 (by rw [hid]; exact hexc)
    have hfin := ufrFinish_none { t with excluded_count := t.excluded_count + 1 }
      (cleanUrl u) r sp now
      (if should_exclude_url (cleanUrl (cleanUrl u)) t.exclude_patterns = true then 1 else 0)
      (alGet_eq_none_of_not_contains t.links (cleanUrl u) hcf)
    simp only [hcf, Bool.false_eq_true, if_false, h1]
    rw [hfin]
    exact ⟨rfl, rfl⟩

/-- The frontier of the claim C9 witness (one exclusion pattern, no
tracked links). -/
def c9_tracker : LinkTracker := LinkTracker.construct "http://example.com/" ["/private/"]

/-- The response of the claim C9 witness. -/
def c9_response : Response :=
  { status_code := 200, retry_after := none, location := none,
    content_type := some "text/html", url := "http://example.com/private/a",
    history := [], content := "", raw_links := [] }

/-- Witness for claim C9: recording a result for an untracked excluded
URL raises and records no success, only the counter bump. -/
theorem update_from_result_lookup_safety_witness :
    (cleanUrl (cleanUrl "http://example.com/private/a") =
       cleanUrl "http://example.com/private/a" ∧
     alContains c9_tracker.links (cleanUrl "http://example.com/private/a") = false ∧
     should_exclude_url (cleanUrl "http://example.com/private/a")
       c9_tracker.exclude_patterns = true) ∧
    ((c9_tracker.update_from_result c9_response "http://example.com/private/a" none 0).raised
        = true ∧
     (c9_tracker.update_from_result c9_response "http://example.com/private/a" none 0).tracker
        = { c9_tracker with excluded_count := c9_tracker.excluded_count + 1 }) :=
  ⟨⟨by decide, by decide, by decide⟩,
   (update_from_result_lookup_safety c9_tracker c9_response "http://example.com/private/a"
      none 0 (by decide)).2 (by decide) (by decide)⟩

/-- Claim C10: `update_status` on a URL whose normalized key is not in
the links table is a complete no-op — no status entry is created, no
error recorded, the whole frontier state is returned unchanged (and no
persistence write happens, since the early return precedes the save). -/
theorem update_status_unknown_key_frame
    (t : LinkTracker) (url : String) (st : CrawlStatus) (err : Option String)
    (h : alContains t.links (cleanUrl url) = false) :
    t.update_status url st err = t := by
  simp only [LinkTracker.update_status, h, Bool.false_eq_true, if_false]

/-- Witness for claim C10 at a fresh frontier and an unknown URL. -/
theorem update_status_unknown_key_frame_witness :
    alContains (LinkTracker.construct "http://example.com/" []).links
      (cleanUrl "http://example.com/nope") = false ∧
    (LinkTracker.construct "http://example.com/" []).update_status "http://example.com/nope"
      CrawlStatus.failed (some "boom") = LinkTracker.construct "http://example.com/" [] :=
  ⟨by decide,
   update_status_unknown_key_frame (LinkTracker.construct "http://example.com/" [])
     "http://example.com/nope" CrawlStatus.failed (some "boom") (by decide)⟩
